import Mathlib

/-!
Shallow embedding of the OpenChessVision orchestration core
(src/openchessvision/core/models.py, core/fen.py, pdf/discovery.py,
orchestrator/manager.py) and proofs about its selection policy, caching,
idempotence and error handling.

Modelling conventions:
- Python floats are modelled as rationals (the claims are about exact
  comparisons and arithmetic identities, not rounding).
- Python exceptions are modelled with Except String (the error carries the
  exception message).
- Mutation of the manager is modelled by state-passing: each operation takes
  the WorkflowManager value and returns the updated one, together with the
  value the Python method returns, the list of external calls made to the
  Recognition Backend / Board Driver, and the list of observer notifications
  emitted (a notification event stands for the fan-out loop over the
  registered observers).
- Python dicts used as caches are modelled as association lists with
  insertion-order semantics (dictGet / dictInsert below).
-/

namespace OpenChessVision

/-- Classification of how a diagram is embedded in the PDF (models.py, DiagramType). -/
inductive DiagramType where
  | RASTER
  | VECTOR
  | UNKNOWN
deriving DecidableEq, Repr

/-- Which side of the board is at the bottom of the diagram (models.py, BoardOrientation). -/
inductive BoardOrientation where
  | WHITE
  | BLACK
  | UNKNOWN
deriving DecidableEq, Repr

/-- Board driver connection states (models.py, ConnectionStatus). -/
inductive ConnectionStatus where
  | DISCONNECTED
  | SCANNING
  | CONNECTING
  | CONNECTED
  | ERROR
deriving DecidableEq, Repr

/-- Result status for the set_position command (models.py, SetPositionResultStatus). -/
inductive SetPositionResultStatus where
  | SUCCESS
  | IN_PROGRESS
  | FAILED
  | CANCELLED
deriving DecidableEq, Repr

/-- Axis-aligned bounding box in page coordinates (models.py, BoundingBox). -/
structure BoundingBox where
  x0 : ℚ
  y0 : ℚ
  x1 : ℚ
  y1 : ℚ
deriving DecidableEq, Repr

/-- models.py BoundingBox.width. -/
def BoundingBox.width (b : BoundingBox) : ℚ := b.x1 - b.x0

/-- models.py BoundingBox.height. -/
def BoundingBox.height (b : BoundingBox) : ℚ := b.y1 - b.y0

/-- models.py BoundingBox.area. -/
def BoundingBox.area (b : BoundingBox) : ℚ := b.width * b.height

/-- models.py BoundingBox.intersects. -/
def BoundingBox.intersects (b other : BoundingBox) : Bool :=
  !(decide (b.x1 < other.x0) || decide (b.x0 > other.x1) ||
    decide (b.y1 < other.y0) || decide (b.y0 > other.y1))

/-- models.py BoundingBox.intersection_area. -/
def BoundingBox.intersection_area (b other : BoundingBox) : ℚ :=
  if b.intersects other then
    (min b.x1 other.x1 - max b.x0 other.x0) * (min b.y1 other.y1 - max b.y0 other.y0)
  else 0

/-- models.py BoundingBox.visibility_fraction: fraction of b visible in the viewport. -/
def BoundingBox.visibility_fraction (b viewport : BoundingBox) : ℚ :=
  if b.area = 0 then 0 else b.intersection_area viewport / b.area

/-- A detected chess diagram candidate within a PDF page (models.py, DiagramCandidate). -/
structure DiagramCandidate where
  page_number : Nat
  bbox : BoundingBox
  diagram_type : DiagramType
  candidate_id : String
deriving DecidableEq, Repr

/-- Per-square recognition confidence (models.py, SquareConfidence). -/
structure SquareConfidence where
  square : String
  piece : Option String
  confidence : ℚ
deriving DecidableEq, Repr

/-- The result of recognizing a chess position from a diagram (models.py, RecognizedPosition). -/
structure RecognizedPosition where
  piece_placement : List (String × String)
  fen : Option String
  orientation : BoardOrientation
  overall_confidence : ℚ
  square_confidences : List SquareConfidence
  source_candidate_id : Option String
  side_to_move : Option String
  annotation : Option String
deriving DecidableEq, Repr

/-- models.py RecognizedPosition.is_high_confidence: overall_confidence >= 0.85. -/
def RecognizedPosition.is_high_confidence (p : RecognizedPosition) : Bool :=
  decide (p.overall_confidence ≥ 0.85)

/-- Result of a set_position command to the board (models.py, SetPositionResult). -/
structure SetPositionResult where
  status : SetPositionResultStatus
  message : Option String
  estimated_time_ms : Option Nat
deriving DecidableEq, Repr

/-- Current viewport state of the PDF reader (models.py, ViewportState). -/
structure ViewportState where
  page_index : Nat
  zoom_scale : ℚ
  viewport_bbox : BoundingBox
  scroll_position_y : ℚ
deriving DecidableEq, Repr

/-! ### FEN utilities (core/fen.py) -/

/-- Helper for pySplit: walk the characters, collecting the current field in
acc (reversed); whitespace closes the current field, empty fields are
dropped. -/
def pySplitAux : List Char → List Char → List String
  | [], acc => if acc.isEmpty then [] else [String.mk acc.reverse]
  | c :: cs, acc =>
    if c.isWhitespace then
      if acc.isEmpty then pySplitAux cs []
      else String.mk acc.reverse :: pySplitAux cs []
    else pySplitAux cs (c :: acc)

/-- Python str.split() with no argument: split on runs of whitespace and drop
empty pieces. -/
def pySplit (s : String) : List String := pySplitAux s.data []

/-- fen.py get_piece_placement_only: fen.split()[0]. Indexing an empty list raises
IndexError in Python, modelled as an Except.error. -/
def get_piece_placement_only (fen : String) : Except String String :=
  match pySplit fen with
  | [] => Except.error "IndexError: list index out of range"
  | f :: _ => Except.ok f

/-- fen.py positions_equal: compare only the piece-placement fields of two FENs. -/
def positions_equal (fen1 fen2 : String) : Except String Bool :=
  match get_piece_placement_only fen1 with
  | Except.error e => Except.error e
  | Except.ok p1 =>
    match get_piece_placement_only fen2 with
    | Except.error e => Except.error e
    | Except.ok p2 => Except.ok (decide (p1 = p2))

/-! ### Candidate selector (pdf/discovery.py, select_topmost_visible) -/

/-- The sort key used by select_topmost_visible: (bbox.y0, bbox.x0) of the
candidate component of a (candidate, visibility) pair. -/
def sort_key (cv : DiagramCandidate × ℚ) : ℚ × ℚ := (cv.1.bbox.y0, cv.1.bbox.x0)

/-- Lexicographic order on pairs of rationals, as Python compares key tuples. -/
def lexLe (p q : ℚ × ℚ) : Bool :=
  decide (p.1 < q.1 ∨ (p.1 = q.1 ∧ p.2 ≤ q.2))

/-- Comparison used to sort the visible_candidates list. -/
def key_le (a b : DiagramCandidate × ℚ) : Bool := lexLe (sort_key a) (sort_key b)

/-- discovery.py select_topmost_visible: filter candidates by visibility in the
viewport, stable-sort by (y0, x0) and return the first. Python list.sort is a
stable sort, modelled by List.mergeSort. The source default for
min_visibility_fraction is 0.3. -/
def select_topmost_visible (candidates : List DiagramCandidate) (viewport : BoundingBox)
    (min_visibility_fraction : ℚ) : Option DiagramCandidate :=
  let visible_candidates :=
    (candidates.map (fun c => (c, c.bbox.visibility_fraction viewport))).filter
      (fun cv => min_visibility_fraction ≤ cv.2)
  if visible_candidates.isEmpty then none
  else ((visible_candidates.mergeSort key_le).head?).map (fun cv => cv.1)

/-! ### Workflow orchestrator (orchestrator/manager.py) -/

/-- Application workflow states (manager.py, WorkflowState). -/
inductive WorkflowState where
  | IDLE
  | PDF_LOADED
  | DIAGRAM_SELECTED
  | POSITION_RECOGNIZED
  | SENDING_TO_BOARD
  | POSITION_SENT
  | ERROR
deriving DecidableEq, Repr

/-- One observer notification event. Emitting an event stands for the
corresponding _notify_* fan-out loop over all registered observers
(manager.py lines 133-166). -/
inductive Notification where
  | connection_status_changed (status : ConnectionStatus)
  | position_recognized (position : RecognizedPosition)
  | active_diagram_changed (candidate : Option DiagramCandidate)
  | position_sent (result : SetPositionResult)
  | error (message : String)
deriving DecidableEq, Repr

/-- One invocation of an external collaborator (Recognition Backend or Board
Driver) made by the orchestrator. -/
inductive ExtCall where
  | backend_recognize (image : Nat)
  | board_set_position (fen : String)
  | board_stop_motion
deriving DecidableEq, Repr

/-- Current workflow context data (manager.py, WorkflowContext). Timestamps
(datetime.now values) are abstracted to Unit. -/
structure WorkflowContext where
  current_pdf_path : Option String
  current_page : Nat
  viewport : Option ViewportState
  all_candidates : List (Nat × List DiagramCandidate)
  active_candidate : Option DiagramCandidate
  active_candidate_changed_at : Option Unit
  recognized_position : Option RecognizedPosition
  recognition_cache : List (String × RecognizedPosition)
  last_sent_fen : Option String
  last_send_result : Option SetPositionResult
  auto_sync_enabled : Bool
  min_confidence_for_auto : ℚ
  debounce_ms : Nat
deriving DecidableEq, Repr

/-- The dataclass field defaults of WorkflowContext: the value of
WorkflowContext() in Python. -/
def WorkflowContext.init : WorkflowContext where
  current_pdf_path := none
  current_page := 0
  viewport := none
  all_candidates := []
  active_candidate := none
  active_candidate_changed_at := none
  recognized_position := none
  recognition_cache := []
  last_sent_fen := none
  last_send_result := none
  auto_sync_enabled := false
  min_confidence_for_auto := 0.85
  debounce_ms := 500

/-- The orchestrator state: workflow state plus context (manager.py,
WorkflowManager fields _state and _context). -/
structure WorkflowManager where
  state : WorkflowState
  context : WorkflowContext
deriving DecidableEq, Repr

/-- A freshly constructed WorkflowManager. -/
def WorkflowManager.init : WorkflowManager where
  state := WorkflowState.IDLE
  context := WorkflowContext.init

/-- The Board Driver as seen by the orchestrator: a connection status, a
set_position behaviour and a stop_motion behaviour. An Except.error models the
driver raising an exception with that message. -/
structure BoardDriver where
  connection_status : ConnectionStatus
  set_position : String → Except String SetPositionResult
  stop_motion : Except String Unit

/-- Python dict lookup d.get(k) on an insertion-ordered association list. -/
def dictGet {α : Type} (k : String) : List (String × α) → Option α
  | [] => none
  | (k2, v) :: rest => if k2 = k then some v else dictGet k rest

/-- Python dict assignment d[k] = v: replace in place if the key is present,
otherwise append. -/
def dictInsert {α : Type} (k : String) (v : α) : List (String × α) → List (String × α)
  | [] => [(k, v)]
  | (k2, v2) :: rest => if k2 = k then (k, v) :: rest else (k2, v2) :: dictInsert k v rest

/-- manager.py on_pdf_opened (lines 178-189): set path, candidates and page,
clear active_candidate and recognized_position, go to PDF_LOADED. All other
context fields are left as they are. -/
def on_pdf_opened (mgr : WorkflowManager) (path : String)
    (candidates : List (Nat × List DiagramCandidate)) : WorkflowManager where
  state := WorkflowState.PDF_LOADED
  context := { mgr.context with
    current_pdf_path := some path
    all_candidates := candidates
    current_page := 0
    active_candidate := none
    recognized_position := none }

/-- manager.py on_pdf_closed (lines 191-194): fresh context, back to IDLE. -/
def on_pdf_closed (_mgr : WorkflowManager) : WorkflowManager where
  state := WorkflowState.IDLE
  context := WorkflowContext.init

/-- Result of one recognize_diagram invocation: the updated manager, the Python
return value, the external calls made, and the observer notifications emitted. -/
structure RecognizeResult where
  mgr : WorkflowManager
  ret : Option RecognizedPosition
  calls : List ExtCall
  notifications : List Notification
deriving DecidableEq, Repr

/-- manager.py recognize_diagram (lines 254-320). The Recognition Backend is the
function backend (an Except.error is a raised exception); image pixel buffers
are abstracted to Nat. image_getter = none models passing image_getter=None;
the getter itself may also raise (it is called inside the try block). The
_last_recognition_time timestamp is not modelled. -/
def recognize_diagram (mgr : WorkflowManager)
    (backend : Nat → Except String RecognizedPosition)
    (candidate : Option DiagramCandidate)
    (image_getter : Option (DiagramCandidate → Except String Nat)) : RecognizeResult :=
  let cand := match candidate with
    | some c => some c
    | none => mgr.context.active_candidate
  match cand with
  | none => { mgr := mgr, ret := none, calls := [], notifications := [] }
  | some c =>
    match dictGet c.candidate_id mgr.context.recognition_cache with
    | some cached =>
      { mgr := { state := WorkflowState.POSITION_RECOGNIZED,
                 context := { mgr.context with recognized_position := some cached } },
        ret := some cached,
        calls := [],
        notifications := [Notification.position_recognized cached] }
    | none =>
      match image_getter with
      | none =>
        -- logger.error only; no state change, no notification
        { mgr := mgr, ret := none, calls := [], notifications := [] }
      | some getter =>
        match getter c with
        | Except.error e =>
          { mgr := { mgr with state := WorkflowState.ERROR },
            ret := none,
            calls := [],
            notifications := [Notification.error ("Recognition failed: " ++ e)] }
        | Except.ok image =>
          match backend image with
          | Except.error e =>
            { mgr := { mgr with state := WorkflowState.ERROR },
              ret := none,
              calls := [ExtCall.backend_recognize image],
              notifications := [Notification.error ("Recognition failed: " ++ e)] }
          | Except.ok position =>
            let stamped : RecognizedPosition :=
              { piece_placement := position.piece_placement,
                fen := position.fen,
                orientation := position.orientation,
                overall_confidence := position.overall_confidence,
                square_confidences := position.square_confidences,
                source_candidate_id := some c.candidate_id,
                side_to_move := position.side_to_move,
                annotation := position.annotation }
            { mgr := { state := WorkflowState.POSITION_RECOGNIZED,
                       context := { mgr.context with
                         recognition_cache :=
                           dictInsert c.candidate_id stamped mgr.context.recognition_cache,
                         recognized_position := some stamped } },
              ret := some stamped,
              calls := [ExtCall.backend_recognize image],
              notifications := [Notification.position_recognized stamped] }

/-- Result of one send_to_board invocation: updated manager, the returned
SetPositionResult, external calls, notifications. -/
structure SendResult where
  mgr : WorkflowManager
  result : SetPositionResult
  calls : List ExtCall
  notifications : List Notification
deriving DecidableEq, Repr

/-- The already-sent test of send_to_board (manager.py lines 372-373): true when
last_sent_fen is set and positions_equal holds for it and the FEN to send. -/
def already_sent_check (mgr : WorkflowManager) (fen : String) : Except String Bool :=
  match mgr.context.last_sent_fen with
  | none => Except.ok false
  | some last => positions_equal fen last

/-- The confidence-gate test of send_to_board (manager.py lines 387-389): blocks
when confirmation is not required and a recognized position with
non-high confidence is present. -/
def low_confidence_blocks (mgr : WorkflowManager) (require_confirmation : Bool) : Bool :=
  !require_confirmation &&
    (match mgr.context.recognized_position with
     | some rp => ! rp.is_high_confidence
     | none => false)

/-- manager.py send_to_board, from the point where the FEN to send has been
resolved (lines 371-419): already-set short-circuit, connection check,
confidence gate, then the driver call. An Except.error of the whole function
models an exception escaping send_to_board (only positions_equal can raise
here; driver exceptions are caught). -/
def send_resolved (board : BoardDriver) (mgr : WorkflowManager) (fen : String)
    (require_confirmation : Bool) : Except String SendResult :=
  match already_sent_check mgr fen with
  | Except.error e => Except.error e
  | Except.ok true =>
    Except.ok
      { mgr := mgr,
        result := { status := SetPositionResultStatus.SUCCESS,
                    message := some "Position already set",
                    estimated_time_ms := none },
        calls := [], notifications := [] }
  | Except.ok false =>
    if board.connection_status ≠ ConnectionStatus.CONNECTED then
      Except.ok
        { mgr := mgr,
          result := { status := SetPositionResultStatus.FAILED,
                      message := some "Board not connected",
                      estimated_time_ms := none },
          calls := [], notifications := [] }
    else if low_confidence_blocks mgr require_confirmation then
      Except.ok
        { mgr := mgr,
          result := { status := SetPositionResultStatus.FAILED,
                      message := some "Low confidence - confirmation required",
                      estimated_time_ms := none },
          calls := [], notifications := [] }
    else
      -- _set_state(SENDING_TO_BOARD), then the driver call inside try
      match board.set_position fen with
      | Except.error e =>
        Except.ok
          { mgr := { mgr with state := WorkflowState.ERROR },
            result := { status := SetPositionResultStatus.FAILED,
                        message := some e,
                        estimated_time_ms := none },
            calls := [ExtCall.board_set_position fen],
            notifications := [Notification.error ("Failed to send position: " ++ e)] }
      | Except.ok result =>
        if result.status = SetPositionResultStatus.SUCCESS then
          Except.ok
            { mgr := { state := WorkflowState.POSITION_SENT,
                       context := { mgr.context with
                         last_sent_fen := some fen,
                         last_send_result := some result } },
              result := result,
              calls := [ExtCall.board_set_position fen],
              notifications := [Notification.position_sent result] }
        else
          Except.ok
            { mgr := { state := WorkflowState.ERROR,
                       context := { mgr.context with last_send_result := some result } },
              result := result,
              calls := [ExtCall.board_set_position fen],
              notifications := [Notification.position_sent result] }

/-- manager.py send_to_board (lines 343-419): resolve the FEN to send (explicit
argument, else recognized_position.fen), then proceed as in send_resolved. -/
def send_to_board (board : BoardDriver) (mgr : WorkflowManager) (fenArg : Option String)
    (require_confirmation : Bool) : Except String SendResult :=
  match fenArg with
  | some f => send_resolved board mgr f require_confirmation
  | none =>
    match mgr.context.recognized_position with
    | none =>
      Except.ok
        { mgr := mgr,
          result := { status := SetPositionResultStatus.FAILED,
                      message := some "No position recognized",
                      estimated_time_ms := none },
          calls := [], notifications := [] }
    | some rp =>
      match rp.fen with
      | none =>
        Except.ok
          { mgr := mgr,
            result := { status := SetPositionResultStatus.FAILED,
                        message := some "Recognition did not produce a valid FEN",
                        estimated_time_ms := none },
            calls := [], notifications := [] }
      | some f => send_resolved board mgr f require_confirmation

/-- The FEN that send_to_board resolves for sending: the explicit argument if
given, otherwise recognized_position.fen. -/
def fen_resolved (mgr : WorkflowManager) (fenArg : Option String) : Option String :=
  match fenArg with
  | some f => some f
  | none =>
    match mgr.context.recognized_position with
    | none => none
    | some rp => rp.fen

/-- Result of one emergency_stop invocation. raised = some e means the driver
exception e escaped to the caller. -/
structure StopResult where
  mgr : WorkflowManager
  raised : Option String
  calls : List ExtCall

/-- manager.py emergency_stop (lines 421-424): log a warning, then call
BoardDriver.stop_motion. There is no try/except here, so a driver exception
propagates to the caller; the manager state is untouched either way. -/
def emergency_stop (board : BoardDriver) (mgr : WorkflowManager) : StopResult :=
  match board.stop_motion with
  | Except.ok _ => { mgr := mgr, raised := none, calls := [ExtCall.board_stop_motion] }
  | Except.error e => { mgr := mgr, raised := some e, calls := [ExtCall.board_stop_motion] }

/-! ### Debounce-task lifecycle (manager.py _schedule_recognition, lines 229-243)

_schedule_recognition cancels the pending asyncio debounce task, if any, and
creates a new one whose body sleeps debounce_ms and then performs the
recognition for the candidate captured at scheduling time. We model the
single-threaded cooperative scheduler with discrete time: the manager holds at
most one pending task (deadline, captured candidate); cancelling simply
replaces it, so a cancelled task's body can never run; when time passes with
no new events and the deadline of the pending task is reached, the task fires
and its body runs (recorded in runs). -/

/-- Scheduler state for the debounce task: current time, the pending
not-yet-fired task (deadline, captured candidate), and the recognitions whose
body actually ran, in order, with the time at which they fired. -/
structure DebounceState where
  now : Nat
  pending : Option (Nat × DiagramCandidate)
  runs : List (Nat × DiagramCandidate)
deriving DecidableEq, Repr

/-- manager.py _schedule_recognition: cancel the pending task (its body will
never run) and schedule a new task for the given candidate, due after
debounce_ms. -/
def schedule_recognition (s : DebounceState) (debounce_ms : Nat)
    (candidate : DiagramCandidate) : DebounceState where
  now := s.now
  pending := some (s.now + debounce_ms, candidate)
  runs := s.runs

/-- dt milliseconds pass with no further viewport events: if the pending task's
deadline falls within the window, its sleep completes and its body runs. -/
def elapse (s : DebounceState) (dt : Nat) : DebounceState :=
  match s.pending with
  | some td =>
    if td.1 ≤ s.now + dt then
      { now := s.now + dt, pending := none, runs := s.runs ++ [td] }
    else
      { now := s.now + dt, pending := some td, runs := s.runs }
  | none => { now := s.now + dt, pending := none, runs := s.runs }

/-- An event in the debounce timeline: a qualifying viewport change (with
auto-sync on) that schedules a recognition, or time passing quietly. -/
inductive DebounceEvent where
  | viewport_change (candidate : DiagramCandidate)
  | quiet (dt : Nat)
deriving DecidableEq, Repr

/-- Run a timeline of events against the debounce scheduler. -/
def run_debounce (debounce_ms : Nat) : DebounceState → List DebounceEvent → DebounceState
  | s, [] => s
  | s, DebounceEvent.viewport_change c :: evs =>
    run_debounce debounce_ms (schedule_recognition s debounce_ms c) evs
  | s, DebounceEvent.quiet dt :: evs =>
    run_debounce debounce_ms (elapse s dt) evs

/-! ### Auxiliary definitions used by the statements and proofs -/

/-- Whether a notification is an on_error notification. -/
def is_error_note : Notification → Bool
  | Notification.error _ => true
  | _ => false

/-- First minimum of a list under a Boolean comparison, ties going to the
earlier element. Used to characterize the head of the stable sort in
select_topmost_visible. -/
def firstMinBy {α : Type} (le : α → α → Bool) : List α → Option α
  | [] => none
  | a :: rest =>
    match firstMinBy le rest with
    | none => some a
    | some b => if le a b then some a else some b

/-- The source-tracking copy made by recognize_diagram before caching: the
backend's position with source_candidate_id stamped in. -/
def stamp (c : DiagramCandidate) (pos : RecognizedPosition) : RecognizedPosition where
  piece_placement := pos.piece_placement
  fen := pos.fen
  orientation := pos.orientation
  overall_confidence := pos.overall_confidence
  square_confidences := pos.square_confidences
  source_candidate_id := some c.candidate_id
  side_to_move := pos.side_to_move
  annotation := pos.annotation

/-! ### Concrete fixtures for witnesses and counterexamples -/

/-- A sample recognized position with the given confidence and FEN. -/
def mkPosition (conf : ℚ) (f : Option String) : RecognizedPosition where
  piece_placement := [("e1", "K"), ("e8", "k")]
  fen := f
  orientation := BoardOrientation.WHITE
  overall_confidence := conf
  square_confidences := []
  source_candidate_id := none
  side_to_move := none
  annotation := none

/-- A sample diagram candidate with the given id and top-left corner. -/
def mkCandidate (i : String) (x y : ℚ) : DiagramCandidate where
  page_number := 0
  bbox := { x0 := x, y0 := y, x1 := x + 10, y1 := y + 10 }
  diagram_type := DiagramType.RASTER
  candidate_id := i

/-- A connected board driver whose set_position always succeeds. -/
def okBoard : BoardDriver where
  connection_status := ConnectionStatus.CONNECTED
  set_position := fun _ =>
    Except.ok { status := SetPositionResultStatus.SUCCESS, message := none,
                estimated_time_ms := none }
  stop_motion := Except.ok ()

/-- A disconnected board driver. -/
def offBoard : BoardDriver where
  connection_status := ConnectionStatus.DISCONNECTED
  set_position := fun _ =>
    Except.ok { status := SetPositionResultStatus.FAILED, message := some "offline",
                estimated_time_ms := none }
  stop_motion := Except.ok ()

/-- A board driver whose stop_motion raises. -/
def faultyBoard : BoardDriver where
  connection_status := ConnectionStatus.CONNECTED
  set_position := fun _ =>
    Except.ok { status := SetPositionResultStatus.SUCCESS, message := none,
                estimated_time_ms := none }
  stop_motion := Except.error "Motor fault"

/-- A manager left over from a previous document: non-empty recognition cache,
a last sent FEN and a last send result. -/
def dirtyManager : WorkflowManager where
  state := WorkflowState.POSITION_SENT
  context := { WorkflowContext.init with
    current_pdf_path := some "old.pdf",
    recognition_cache := [("cand-1", mkPosition (9/10) (some "8/8 w - - 0 1"))],
    last_sent_fen := some "8/8 w - - 0 1",
    last_send_result := some { status := SetPositionResultStatus.SUCCESS,
                               message := none, estimated_time_ms := none } }

/-- A manager that has already sent the position with placement field 8/8. -/
def sentManager : WorkflowManager where
  state := WorkflowState.POSITION_SENT
  context := { WorkflowContext.init with last_sent_fen := some "8/8 w - - 0 1" }

/-- A manager holding a low-confidence (0.5) recognized position. -/
def lowConfManager : WorkflowManager where
  state := WorkflowState.POSITION_RECOGNIZED
  context := { WorkflowContext.init with
    recognized_position := some (mkPosition (1/2) (some "8/8 w - - 0 1")) }

/-- A manager holding a high-confidence (0.9) recognized position. -/
def highConfManager : WorkflowManager where
  state := WorkflowState.POSITION_RECOGNIZED
  context := { WorkflowContext.init with
    recognized_position := some (mkPosition (9/10) (some "8/8 w - - 0 1")) }

/-! ## Theorems -/

deriving instance DecidableEq for Except

/-- C3 counterexample: with a Board Driver whose stop_motion raises, the
exception escapes emergency_stop to its caller (there is no try/except in
WorkflowManager.emergency_stop), contradicting the claim that emergency_stop
catches driver exceptions and returns normally for every driver behaviour. -/
theorem emergency_stop_raises_on_driver_exception :
    (emergency_stop faultyBoard WorkflowManager.init).raised = some "Motor fault" := rfl

/-- C3 (amended): emergency_stop performs no workflow state transition and
always calls BoardDriver.stop_motion regardless of the current state; it
returns normally exactly when stop_motion does not raise, and a stop_motion
exception propagates to the caller. -/
theorem emergency_stop_always_stops_and_never_transitions
    (board : BoardDriver) (mgr : WorkflowManager) :
    (emergency_stop board mgr).mgr = mgr ∧
    (emergency_stop board mgr).calls = [ExtCall.board_stop_motion] ∧
    ((emergency_stop board mgr).raised = none ↔ board.stop_motion = Except.ok ()) := by
  cases h : board.stop_motion with
  | ok u => cases u; simp [emergency_stop, h]
  | error e => simp [emergency_stop, h]

/-- C4 counterexample: opening a new PDF over a manager that still holds a
recognition cache, a last sent FEN and a last send result does not produce a
fresh Context with only the path and candidates set: the old cache and board
fields survive. -/
theorem on_pdf_opened_retains_old_fields :
    (on_pdf_opened dirtyManager "new.pdf" []).context ≠
      { WorkflowContext.init with
        current_pdf_path := some "new.pdf", all_candidates := [] } := by
  decide

/-- C4 (amended): on_pdf_opened sets current_pdf_path and all_candidates from
its arguments, resets current_page to 0 and clears active_candidate and
recognized_position, and moves to PDF_LOADED; every other Context field,
in particular recognition_cache, last_sent_fen and last_send_result, is
retained from before the call. -/
theorem on_pdf_opened_resets_only_pdf_fields (mgr : WorkflowManager) (path : String)
    (cands : List (Nat × List DiagramCandidate)) :
    on_pdf_opened mgr path cands =
      { state := WorkflowState.PDF_LOADED,
        context := { mgr.context with
          current_pdf_path := some path, all_candidates := cands, current_page := 0,
          active_candidate := none, recognized_position := none } } ∧
    (on_pdf_opened mgr path cands).context.recognition_cache =
      mgr.context.recognition_cache ∧
    (on_pdf_opened mgr path cands).context.last_sent_fen = mgr.context.last_sent_fen ∧
    (on_pdf_opened mgr path cands).context.last_send_result =
      mgr.context.last_send_result :=
  ⟨rfl, rfl, rfl, rfl⟩

/-- When a FEN is resolved, send_to_board proceeds as send_resolved on it. -/
theorem send_to_board_resolved (board : BoardDriver) (mgr : WorkflowManager)
    (fenArg : Option String) (rc : Bool) (f : String)
    (h : fen_resolved mgr fenArg = some f) :
    send_to_board board mgr fenArg rc = send_resolved board mgr f rc := by
  unfold fen_resolved at h
  unfold send_to_board
  cases fenArg with
  | some g => simp only [Option.some.injEq] at h; rw [h]
  | none =>
    cases hrp : mgr.context.recognized_position with
    | none => simp [hrp] at h
    | some rp =>
      simp only [hrp] at h ⊢
      rw [h]

/-- C9: the already-set short-circuit precedes the connection check: whenever
the resolved FEN and last_sent_fen agree on the piece-placement field,
send_to_board returns SUCCESS "Position already set" for every Board Driver,
in particular one whose connection_status is not CONNECTED, without any driver
interaction and without changing the manager. -/
theorem send_already_set_ignores_connection
    (board : BoardDriver) (mgr : WorkflowManager) (fenArg : Option String)
    (rc : Bool) (f ls : String)
    (hres : fen_resolved mgr fenArg = some f)
    (hlast : mgr.context.last_sent_fen = some ls)
    (heq : positions_equal f ls = Except.ok true) :
    send_to_board board mgr fenArg rc =
      Except.ok
        { mgr := mgr,
          result := { status := SetPositionResultStatus.SUCCESS,
                      message := some "Position already set", estimated_time_ms := none },
          calls := [], notifications := [] } := by
  rw [send_to_board_resolved board mgr fenArg rc f hres]
  unfold send_resolved already_sent_check
  simp only [hlast, heq]

/-- C9 witness: a manager whose last sent FEN has placement 8/8, a disconnected
driver, and an explicit FEN differing only in the game-state fields. -/
theorem send_already_set_ignores_connection_witness :
    fen_resolved sentManager (some "8/8 b KQ e3 5 9") = some "8/8 b KQ e3 5 9" ∧
    sentManager.context.last_sent_fen = some "8/8 w - - 0 1" ∧
    positions_equal "8/8 b KQ e3 5 9" "8/8 w - - 0 1" = Except.ok true ∧
    offBoard.connection_status ≠ ConnectionStatus.CONNECTED ∧
    send_to_board offBoard sentManager (some "8/8 b KQ e3 5 9") false =
      Except.ok
        { mgr := sentManager,
          result := { status := SetPositionResultStatus.SUCCESS,
                      message := some "Position already set", estimated_time_ms := none },
          calls := [], notifications := [] } :=
  ⟨rfl, rfl, by decide, by decide,
    send_already_set_ignores_connection offBoard sentManager (some "8/8 b KQ e3 5 9")
      false "8/8 b KQ e3 5 9" "8/8 w - - 0 1" rfl rfl (by decide)⟩

/-- C10: each of the four precondition failures of send_to_board - no position
recognized, recognition without a FEN, board not connected, and low confidence -
returns FAILED while leaving the manager (workflow state, last_sent_fen,
last_send_result and every other Context field) exactly as before the call,
with no driver interaction and no notification; in particular the state does
not become ERROR. -/
theorem send_early_failures_preserve_manager
    (board : BoardDriver) (mgr : WorkflowManager) (rc : Bool) :
    (mgr.context.recognized_position = none →
      send_to_board board mgr none rc =
        Except.ok
          { mgr := mgr,
            result := { status := SetPositionResultStatus.FAILED,
                        message := some "No position recognized", estimated_time_ms := none },
            calls := [], notifications := [] }) ∧
    (∀ rp, mgr.context.recognized_position = some rp → rp.fen = none →
      send_to_board board mgr none rc =
        Except.ok
          { mgr := mgr,
            result := { status := SetPositionResultStatus.FAILED,
                        message := some "Recognition did not produce a valid FEN",
                        estimated_time_ms := none },
            calls := [], notifications := [] }) ∧
    (∀ fenArg f, fen_resolved mgr fenArg = some f →
      already_sent_check mgr f = Except.ok false →
      board.connection_status ≠ ConnectionStatus.CONNECTED →
      send_to_board board mgr fenArg rc =
        Except.ok
          { mgr := mgr,
            result := { status := SetPositionResultStatus.FAILED,
                        message := some "Board not connected", estimated_time_ms := none },
            calls := [], notifications := [] }) ∧
    (∀ fenArg f, fen_resolved mgr fenArg = some f →
      already_sent_check mgr f = Except.ok false →
      board.connection_status = ConnectionStatus.CONNECTED →
      low_confidence_blocks mgr rc = true →
      send_to_board board mgr fenArg rc =
        Except.ok
          { mgr := mgr,
            result := { status := SetPositionResultStatus.FAILED,
                        message := some "Low confidence - confirmation required",
                        estimated_time_ms := none },
            calls := [], notifications := [] }) := by
  refine ⟨?_, ?_, ?_, ?_⟩
  · intro h
    unfold send_to_board
    simp only [h]
  · intro rp hrp hfen
    unfold send_to_board
    simp only [hrp, hfen]
  · intro fenArg f hres hchk hconn
    rw [send_to_board_resolved board mgr fenArg rc f hres]
    unfold send_resolved
    simp only [hchk, if_pos hconn]
  · intro fenArg f hres hchk hconn hgate
    rw [send_to_board_resolved board mgr fenArg rc f hres]
    unfold send_resolved
    simp only [hchk, hconn, hgate]
    simp

/-- C10 witness: a manager with a low-confidence recognized position and a
disconnected board driver hits the board-not-connected branch and is left
unchanged. -/
theorem send_early_failures_preserve_manager_witness :
    fen_resolved lowConfManager none = some "8/8 w - - 0 1" ∧
    already_sent_check lowConfManager "8/8 w - - 0 1" = Except.ok false ∧
    offBoard.connection_status ≠ ConnectionStatus.CONNECTED ∧
    send_to_board offBoard lowConfManager none false =
      Except.ok
        { mgr := lowConfManager,
          result := { status := SetPositionResultStatus.FAILED,
                      message := some "Board not connected", estimated_time_ms := none },
          calls := [], notifications := [] } :=
  ⟨rfl, rfl, by decide,
    (send_early_failures_preserve_manager offBoard lowConfManager false).2.2.1
      none "8/8 w - - 0 1" rfl rfl (by decide)⟩

/-- C6: when the stored recognized_position has overall_confidence below 0.85,
send_to_board with require_confirmation = false fails with the
confirmation-required message and never calls the driver, while the identical
call with require_confirmation = true invokes BoardDriver.set_position; the
gate reads recognized_position even when the FEN being sent was passed
explicitly (fenArg is arbitrary here, constrained only through
fen_resolved). -/
theorem send_confidence_gate
    (board : BoardDriver) (mgr : WorkflowManager) (fenArg : Option String)
    (f : String) (rp : RecognizedPosition)
    (hrp : mgr.context.recognized_position = some rp)
    (hconf : rp.overall_confidence < 0.85)
    (hres : fen_resolved mgr fenArg = some f)
    (hchk : already_sent_check mgr f = Except.ok false)
    (hconn : board.connection_status = ConnectionStatus.CONNECTED) :
    send_to_board board mgr fenArg false =
      Except.ok
        { mgr := mgr,
          result := { status := SetPositionResultStatus.FAILED,
                      message := some "Low confidence - confirmation required",
                      estimated_time_ms := none },
          calls := [], notifications := [] } ∧
    (send_to_board board mgr fenArg true).map (fun r => r.calls) =
      Except.ok [ExtCall.board_set_position f] := by
  have hhigh : rp.is_high_confidence = false := by
    unfold RecognizedPosition.is_high_confidence
    simp only [decide_eq_false_iff_not]
    exact not_le.mpr hconf
  constructor
  · rw [send_to_board_resolved board mgr fenArg false f hres]
    unfold send_resolved
    simp only [hchk, hconn]
    unfold low_confidence_blocks
    simp [hrp, hhigh]
  · rw [send_to_board_resolved board mgr fenArg true f hres]
    unfold send_resolved
    simp only [hchk, hconn]
    unfold low_confidence_blocks
    simp only [Bool.not_true, Bool.false_and]
    cases hsp : board.set_position f with
    | error e => simp [hsp, Except.map]
    | ok res =>
      by_cases hst : res.status = SetPositionResultStatus.SUCCESS <;>
        simp [hsp, hst, Except.map]

/-- C6 witness: a manager with a 0.5-confidence recognition, an explicitly
passed FEN that differs from the recognized one, and a connected driver. -/
theorem send_confidence_gate_witness :
    lowConfManager.context.recognized_position =
      some (mkPosition (1/2) (some "8/8 w - - 0 1")) ∧
    (mkPosition (1/2) (some "8/8 w - - 0 1")).overall_confidence < 0.85 ∧
    fen_resolved lowConfManager (some "7K/8 b - - 0 1") = some "7K/8 b - - 0 1" ∧
    already_sent_check lowConfManager "7K/8 b - - 0 1" = Except.ok false ∧
    okBoard.connection_status = ConnectionStatus.CONNECTED ∧
    (send_to_board okBoard lowConfManager (some "7K/8 b - - 0 1") false =
      Except.ok
        { mgr := lowConfManager,
          result := { status := SetPositionResultStatus.FAILED,
                      message := some "Low confidence - confirmation required",
                      estimated_time_ms := none },
          calls := [], notifications := [] } ∧
    (send_to_board okBoard lowConfManager (some "7K/8 b - - 0 1") true).map
        (fun r => r.calls) =
      Except.ok [ExtCall.board_set_position "7K/8 b - - 0 1"]) :=
  ⟨rfl, by norm_num [mkPosition], rfl, rfl, rfl,
    send_confidence_gate okBoard lowConfManager (some "7K/8 b - - 0 1")
      "7K/8 b - - 0 1" (mkPosition (1/2) (some "8/8 w - - 0 1"))
      rfl (by norm_num [mkPosition]) rfl rfl rfl⟩

/-- Helper: when the already-sent check succeeds, send_resolved short-circuits
with SUCCESS "Position already set" and no driver call. -/
theorem send_resolved_already_set (board : BoardDriver) (mgr : WorkflowManager)
    (f : String) (rc : Bool)
    (h : already_sent_check mgr f = Except.ok true) :
    send_resolved board mgr f rc =
      Except.ok
        { mgr := mgr,
          result := { status := SetPositionResultStatus.SUCCESS,
                      message := some "Position already set", estimated_time_ms := none },
          calls := [], notifications := [] } := by
  unfold send_resolved
  simp only [h]

/-- Helper: the successful driver path of send_resolved updates last_sent_fen
and last_send_result and moves to POSITION_SENT. -/
theorem send_resolved_success (board : BoardDriver) (mgr : WorkflowManager)
    (f : String) (rc : Bool) (res : SetPositionResult)
    (hchk : already_sent_check mgr f = Except.ok false)
    (hconn : board.connection_status = ConnectionStatus.CONNECTED)
    (hgate : low_confidence_blocks mgr rc = false)
    (hsp : board.set_position f = Except.ok res)
    (hst : res.status = SetPositionResultStatus.SUCCESS) :
    send_resolved board mgr f rc =
      Except.ok
        { mgr := { state := WorkflowState.POSITION_SENT,
                   context := { mgr.context with
                     last_sent_fen := some f, last_send_result := some res } },
          result := res,
          calls := [ExtCall.board_set_position f],
          notifications := [Notification.position_sent res] } := by
  unfold send_resolved
  simp only [hchk, hconn, hsp, hgate, hst]
  simp

/-- C2 counterexample: the already-set short-circuit returns the message
"Position already set" (capital P), not "position already set" as the claim
states, at a concrete input where everything else about the claim holds. -/
theorem send_already_set_message_not_lowercase :
    (send_to_board okBoard sentManager (some "8/8 b - - 0 1") false).map
        (fun r => r.result.message) ≠ Except.ok (some "position already set") := by
  decide

/-- C2 (amended): if last_sent_fen is set and shares its piece-placement field
(first whitespace-separated FEN field) with the FEN resolved for sending,
send_to_board returns SUCCESS with message "Position already set" immediately
and never calls the driver; consequently, two consecutive send_to_board calls
whose FENs share the piece placement, the first of which is accepted by the
driver, invoke BoardDriver.set_position exactly once. -/
theorem send_placement_idempotent :
    (∀ (board : BoardDriver) (mgr : WorkflowManager) (fenArg : Option String)
        (rc : Bool) (f ls : String),
      fen_resolved mgr fenArg = some f →
      mgr.context.last_sent_fen = some ls →
      positions_equal f ls = Except.ok true →
      send_to_board board mgr fenArg rc =
        Except.ok
          { mgr := mgr,
            result := { status := SetPositionResultStatus.SUCCESS,
                        message := some "Position already set", estimated_time_ms := none },
            calls := [], notifications := [] }) ∧
    (∀ (board : BoardDriver) (mgr : WorkflowManager) (fa1 : Option String)
        (f1 f2 : String) (rc1 rc2 : Bool) (res : SetPositionResult),
      fen_resolved mgr fa1 = some f1 →
      mgr.context.last_sent_fen = none →
      board.connection_status = ConnectionStatus.CONNECTED →
      low_confidence_blocks mgr rc1 = false →
      board.set_position f1 = Except.ok res →
      res.status = SetPositionResultStatus.SUCCESS →
      positions_equal f2 f1 = Except.ok true →
      send_to_board board mgr fa1 rc1 =
        Except.ok
          { mgr := { state := WorkflowState.POSITION_SENT,
                     context := { mgr.context with
                       last_sent_fen := some f1, last_send_result := some res } },
            result := res,
            calls := [ExtCall.board_set_position f1],
            notifications := [Notification.position_sent res] } ∧
      send_to_board board
          { state := WorkflowState.POSITION_SENT,
            context := { mgr.context with
              last_sent_fen := some f1, last_send_result := some res } }
          (some f2) rc2 =
        Except.ok
          { mgr := { state := WorkflowState.POSITION_SENT,
                     context := { mgr.context with
                       last_sent_fen := some f1, last_send_result := some res } },
            result := { status := SetPositionResultStatus.SUCCESS,
                        message := some "Position already set", estimated_time_ms := none },
            calls := [], notifications := [] }) := by
  constructor
  · intro board mgr fenArg rc f ls hres hlast heq
    rw [send_to_board_resolved board mgr fenArg rc f hres]
    apply send_resolved_already_set
    unfold already_sent_check
    rw [hlast]
    exact heq
  · intro board mgr fa1 f1 f2 rc1 rc2 res hres hlast hconn hgate hsp hst heq2
    constructor
    · rw [send_to_board_resolved board mgr fa1 rc1 f1 hres]
      apply send_resolved_success board mgr f1 rc1 res _ hconn hgate hsp hst
      unfold already_sent_check
      rw [hlast]
    · unfold send_to_board
      apply send_resolved_already_set
      unfold already_sent_check
      exact heq2

/-- C2 witness: starting from a fresh high-confidence manager and a driver that
accepts the position, sending "8/8 w - - 0 1" and then "8/8 b KQ - 3 9"
(identical placement 8/8) calls set_position once and short-circuits the
second send. -/
theorem send_placement_idempotent_witness :
    fen_resolved highConfManager none = some "8/8 w - - 0 1" ∧
    highConfManager.context.last_sent_fen = none ∧
    okBoard.connection_status = ConnectionStatus.CONNECTED ∧
    low_confidence_blocks highConfManager false = false ∧
    okBoard.set_position "8/8 w - - 0 1" =
      Except.ok { status := SetPositionResultStatus.SUCCESS, message := none,
                  estimated_time_ms := none } ∧
    positions_equal "8/8 b KQ - 3 9" "8/8 w - - 0 1" = Except.ok true ∧
    (send_to_board okBoard highConfManager none false =
      Except.ok
        { mgr := { state := WorkflowState.POSITION_SENT,
                   context := { highConfManager.context with
                     last_sent_fen := some "8/8 w - - 0 1",
                     last_send_result := some { status := SetPositionResultStatus.SUCCESS,
                                                message := none, estimated_time_ms := none } } },
          result := { status := SetPositionResultStatus.SUCCESS, message := none,
                      estimated_time_ms := none },
          calls := [ExtCall.board_set_position "8/8 w - - 0 1"],
          notifications := [Notification.position_sent
            { status := SetPositionResultStatus.SUCCESS, message := none,
              estimated_time_ms := none }] } ∧
    send_to_board okBoard
        { state := WorkflowState.POSITION_SENT,
          context := { highConfManager.context with
            last_sent_fen := some "8/8 w - - 0 1",
            last_send_result := some { status := SetPositionResultStatus.SUCCESS,
                                       message := none, estimated_time_ms := none } } }
        (some "8/8 b KQ - 3 9") false =
      Except.ok
        { mgr := { state := WorkflowState.POSITION_SENT,
                   context := { highConfManager.context with
                     last_sent_fen := some "8/8 w - - 0 1",
                     last_send_result := some { status := SetPositionResultStatus.SUCCESS,
                                                message := none, estimated_time_ms := none } } },
          result := { status := SetPositionResultStatus.SUCCESS,
                      message := some "Position already set", estimated_time_ms := none },
          calls := [], notifications := [] }) :=
  ⟨rfl, rfl, rfl,
    by norm_num [low_confidence_blocks, highConfManager, mkPosition,
      RecognizedPosition.is_high_confidence, WorkflowContext.init],
    rfl, by decide,
    send_placement_idempotent.2 okBoard highConfManager none
      "8/8 w - - 0 1" "8/8 b KQ - 3 9" false false
      { status := SetPositionResultStatus.SUCCESS, message := none,
        estimated_time_ms := none }
      rfl rfl rfl
      (by norm_num [low_confidence_blocks, highConfManager, mkPosition,
        RecognizedPosition.is_high_confidence, WorkflowContext.init])
      rfl rfl (by decide)⟩

/-- Helper: any send_to_board outcome that made no driver call emitted no
notifications at all. -/
theorem send_no_call_no_notification
    (board : BoardDriver) (mgr : WorkflowManager) (fenArg : Option String)
    (rc : Bool) (r : SendResult)
    (h : send_to_board board mgr fenArg rc = Except.ok r)
    (hc : r.calls = []) : r.notifications = [] := by
  unfold send_to_board send_resolved at h
  repeat' split at h
  all_goals cases h
  all_goals try simp at hc
  all_goals rfl

/-- C5 counterexample: send_to_board with no recognized position fails with
"No position recognized" but emits no observer notification at all - in
particular no on_error - contradicting the claim that every failure outcome
notifies on_error. -/
theorem send_failure_without_error_notification :
    send_to_board okBoard WorkflowManager.init none false =
      Except.ok
        { mgr := WorkflowManager.init,
          result := { status := SetPositionResultStatus.FAILED,
                      message := some "No position recognized", estimated_time_ms := none },
          calls := [], notifications := [] } := rfl

/-- C5 (amended): on_error is notified exactly on caught exceptions: an
image-getter exception or a backend exception in recognize_diagram and a
driver exception in send_to_board notify on_error with a human-readable
message; the early precondition failures of send_to_board (which make no
driver call) emit no notification at all, a driver rejection notifies only
on_position_sent, and a recognize_diagram call without an image getter emits
no notification. -/
theorem failure_notification_policy :
    (∀ (mgr : WorkflowManager) (backend : Nat → Except String RecognizedPosition)
        (c : DiagramCandidate) (getter : DiagramCandidate → Except String Nat)
        (e : String),
      dictGet c.candidate_id mgr.context.recognition_cache = none →
      getter c = Except.error e →
      recognize_diagram mgr backend (some c) (some getter) =
        { mgr := { mgr with state := WorkflowState.ERROR },
          ret := none,
          calls := [],
          notifications := [Notification.error ("Recognition failed: " ++ e)] }) ∧
    (∀ (mgr : WorkflowManager) (backend : Nat → Except String RecognizedPosition)
        (c : DiagramCandidate) (getter : DiagramCandidate → Except String Nat)
        (img : Nat) (e : String),
      dictGet c.candidate_id mgr.context.recognition_cache = none →
      getter c = Except.ok img →
      backend img = Except.error e →
      recognize_diagram mgr backend (some c) (some getter) =
        { mgr := { mgr with state := WorkflowState.ERROR },
          ret := none,
          calls := [ExtCall.backend_recognize img],
          notifications := [Notification.error ("Recognition failed: " ++ e)] }) ∧
    (∀ (board : BoardDriver) (mgr : WorkflowManager) (f : String) (rc : Bool)
        (e : String),
      already_sent_check mgr f = Except.ok false →
      board.connection_status = ConnectionStatus.CONNECTED →
      low_confidence_blocks mgr rc = false →
      board.set_position f = Except.error e →
      send_resolved board mgr f rc =
        Except.ok
          { mgr := { mgr with state := WorkflowState.ERROR },
            result := { status := SetPositionResultStatus.FAILED,
                        message := some e, estimated_time_ms := none },
            calls := [ExtCall.board_set_position f],
            notifications := [Notification.error ("Failed to send position: " ++ e)] }) ∧
    (∀ (board : BoardDriver) (mgr : WorkflowManager) (fenArg : Option String)
        (rc : Bool) (r : SendResult),
      send_to_board board mgr fenArg rc = Except.ok r → r.calls = [] →
      r.notifications = []) ∧
    (∀ (board : BoardDriver) (mgr : WorkflowManager) (f : String) (rc : Bool)
        (res : SetPositionResult),
      already_sent_check mgr f = Except.ok false →
      board.connection_status = ConnectionStatus.CONNECTED →
      low_confidence_blocks mgr rc = false →
      board.set_position f = Except.ok res →
      res.status ≠ SetPositionResultStatus.SUCCESS →
      send_resolved board mgr f rc =
        Except.ok
          { mgr := { state := WorkflowState.ERROR,
                     context := { mgr.context with last_send_result := some res } },
            result := res,
            calls := [ExtCall.board_set_position f],
            notifications := [Notification.position_sent res] }) ∧
    (∀ (mgr : WorkflowManager) (backend : Nat → Except String RecognizedPosition)
        (c : DiagramCandidate),
      dictGet c.candidate_id mgr.context.recognition_cache = none →
      recognize_diagram mgr backend (some c) none =
        { mgr := mgr, ret := none, calls := [], notifications := [] }) := by
  refine ⟨?_, ?_, ?_, ?_, ?_, ?_⟩
  · intro mgr backend c getter e hmiss hget
    unfold recognize_diagram
    simp only [hmiss, hget]
  · intro mgr backend c getter img e hmiss hget hbk
    unfold recognize_diagram
    simp only [hmiss, hget, hbk]
  · intro board mgr f rc e hchk hconn hgate hsp
    unfold send_resolved
    simp only [hchk, hconn, hgate, hsp]
    simp
  · intro board mgr fenArg rc r h hc
    exact send_no_call_no_notification board mgr fenArg rc r h hc
  · intro board mgr f rc res hchk hconn hgate hsp hst
    unfold send_resolved
    simp only [hchk, hconn, hgate, hsp, hst]
    simp [hst]
  · intro mgr backend c hmiss
    unfold recognize_diagram
    simp only [hmiss]

/-- C5 witness: an image getter that raises "torn page" notifies on_error with
"Recognition failed: torn page", and a backend that raises "boom" notifies
on_error with "Recognition failed: boom"; both move to ERROR. -/
theorem failure_notification_policy_witness :
    dictGet (mkCandidate "c1" 0 0).candidate_id
        WorkflowManager.init.context.recognition_cache = none ∧
    (fun _ : DiagramCandidate => (Except.error "torn page" : Except String Nat))
        (mkCandidate "c1" 0 0) = Except.error "torn page" ∧
    recognize_diagram WorkflowManager.init
        (fun _ => Except.error "boom") (some (mkCandidate "c1" 0 0))
        (some (fun _ => Except.error "torn page")) =
      { mgr := { WorkflowManager.init with state := WorkflowState.ERROR },
        ret := none,
        calls := [],
        notifications := [Notification.error ("Recognition failed: " ++ "torn page")] } ∧
    (fun _ : DiagramCandidate => Except.ok 7) (mkCandidate "c1" 0 0) =
      (Except.ok 7 : Except String Nat) ∧
    (fun _ : Nat => (Except.error "boom" : Except String RecognizedPosition)) 7 =
      Except.error "boom" ∧
    recognize_diagram WorkflowManager.init
        (fun _ => Except.error "boom") (some (mkCandidate "c1" 0 0))
        (some (fun _ => Except.ok 7)) =
      { mgr := { WorkflowManager.init with state := WorkflowState.ERROR },
        ret := none,
        calls := [ExtCall.backend_recognize 7],
        notifications := [Notification.error ("Recognition failed: " ++ "boom")] } :=
  ⟨rfl, rfl,
    failure_notification_policy.1 WorkflowManager.init
      (fun _ => Except.error "boom") (mkCandidate "c1" 0 0)
      (fun _ => Except.error "torn page") "torn page" rfl rfl,
    rfl, rfl,
    failure_notification_policy.2.1 WorkflowManager.init
      (fun _ => Except.error "boom") (mkCandidate "c1" 0 0)
      (fun _ => Except.ok 7) 7 "boom" rfl rfl rfl⟩

/-- Looking up a key just inserted into the cache returns the inserted value. -/
theorem dictGet_dictInsert_self {α : Type} (k : String) (v : α)
    (d : List (String × α)) : dictGet k (dictInsert k v d) = some v := by
  induction d with
  | nil => simp [dictGet, dictInsert]
  | cons hd tl ih =>
    obtain ⟨k2, v2⟩ := hd
    by_cases hk : k2 = k
    · simp [dictGet, dictInsert, hk]
    · simp [dictGet, dictInsert, hk, ih]

/-- C1: with a candidate not yet in the recognition cache, an image getter that
yields pixels and a backend that succeeds, calling recognize_diagram twice for
the same candidate invokes the backend exactly once (on the first call); the
second call makes no external call, returns the value stored in
recognition_cache for that candidate_id (which is also the first call's return
value), stores it in recognized_position, and sets the state to
POSITION_RECOGNIZED. -/
theorem recognize_diagram_cached_idempotent
    (mgr : WorkflowManager) (backend : Nat → Except String RecognizedPosition)
    (getter : DiagramCandidate → Except String Nat) (c : DiagramCandidate)
    (img : Nat) (pos : RecognizedPosition)
    (hmiss : dictGet c.candidate_id mgr.context.recognition_cache = none)
    (hget : getter c = Except.ok img)
    (hbk : backend img = Except.ok pos) :
    let r1 := recognize_diagram mgr backend (some c) (some getter)
    let r2 := recognize_diagram r1.mgr backend (some c) (some getter)
    r1.calls = [ExtCall.backend_recognize img] ∧
    r2.calls = [] ∧
    r2.ret = dictGet c.candidate_id r1.mgr.context.recognition_cache ∧
    r2.ret = r1.ret ∧
    r2.mgr.context.recognized_position = r2.ret ∧
    r2.mgr.state = WorkflowState.POSITION_RECOGNIZED ∧
    (r1.calls ++ r2.calls).countP
        (fun call => match call with | ExtCall.backend_recognize _ => true | _ => false) =
      1 := by
  intro r1 r2
  have e1 : r1 = {
      mgr := { state := WorkflowState.POSITION_RECOGNIZED,
               context := { mgr.context with
                 recognition_cache :=
                   dictInsert c.candidate_id (stamp c pos) mgr.context.recognition_cache,
                 recognized_position := some (stamp c pos) } },
      ret := some (stamp c pos),
      calls := [ExtCall.backend_recognize img],
      notifications := [Notification.position_recognized (stamp c pos)] } := by
    show recognize_diagram mgr backend (some c) (some getter) = _
    unfold recognize_diagram
    simp only [hmiss, hget, hbk]
    rfl
  have hcache : dictGet c.candidate_id r1.mgr.context.recognition_cache =
      some (stamp c pos) := by
    rw [e1]
    exact dictGet_dictInsert_self c.candidate_id _ mgr.context.recognition_cache
  have e2 : r2 = {
      mgr := { state := WorkflowState.POSITION_RECOGNIZED,
               context := { r1.mgr.context with
                 recognized_position := some (stamp c pos) } },
      ret := some (stamp c pos),
      calls := [],
      notifications := [Notification.position_recognized (stamp c pos)] } := by
    show recognize_diagram r1.mgr backend (some c) (some getter) = _
    unfold recognize_diagram
    simp only [hcache]
  refine ⟨?_, ?_, ?_, ?_, ?_, ?_, ?_⟩
  · rw [e1]
  · rw [e2]
  · rw [e2, hcache]
  · rw [e2, e1]
  · rw [e2]
  · rw [e2]
  · rw [e1, e2]
    rfl

/-- C1 witness: a fresh manager, a backend returning a high-confidence
position for image 7, and a constant image getter. -/
theorem recognize_diagram_cached_idempotent_witness :
    dictGet (mkCandidate "c1" 0 0).candidate_id
        WorkflowManager.init.context.recognition_cache = none ∧
    (fun _ : DiagramCandidate => (Except.ok 7 : Except String Nat))
        (mkCandidate "c1" 0 0) = Except.ok 7 ∧
    (fun _ : Nat =>
        (Except.ok (mkPosition (9/10) (some "8/8 w - - 0 1")) :
          Except String RecognizedPosition)) 7 =
      Except.ok (mkPosition (9/10) (some "8/8 w - - 0 1")) ∧
    ((recognize_diagram WorkflowManager.init
        (fun _ => Except.ok (mkPosition (9/10) (some "8/8 w - - 0 1")))
        (some (mkCandidate "c1" 0 0))
        (some (fun _ => Except.ok 7))).calls = [ExtCall.backend_recognize 7] ∧
    (recognize_diagram
        (recognize_diagram WorkflowManager.init
          (fun _ => Except.ok (mkPosition (9/10) (some "8/8 w - - 0 1")))
          (some (mkCandidate "c1" 0 0))
          (some (fun _ => Except.ok 7))).mgr
        (fun _ => Except.ok (mkPosition (9/10) (some "8/8 w - - 0 1")))
        (some (mkCandidate "c1" 0 0))
        (some (fun _ => Except.ok 7))).calls = []) :=
  ⟨rfl, rfl, rfl,
    (recognize_diagram_cached_idempotent WorkflowManager.init
        (fun _ => Except.ok (mkPosition (9/10) (some "8/8 w - - 0 1")))
        (fun _ => Except.ok 7) (mkCandidate "c1" 0 0) 7
        (mkPosition (9/10) (some "8/8 w - - 0 1")) rfl rfl rfl).1,
    (recognize_diagram_cached_idempotent WorkflowManager.init
        (fun _ => Except.ok (mkPosition (9/10) (some "8/8 w - - 0 1")))
        (fun _ => Except.ok 7) (mkCandidate "c1" 0 0) 7
        (mkPosition (9/10) (some "8/8 w - - 0 1")) rfl rfl rfl).2.1⟩

/-- C8: scheduling a debounced recognition replaces (cancels) any pending
debounce task, leaving the executed-recognition list untouched, so a
cancelled task's body never runs; consequently, for two qualifying
viewport-change events dt apart with dt < debounce_ms, followed by a quiet
period of at least debounce_ms, exactly one recognition executes, and it is
for the candidate captured at the second (last) scheduling. -/
theorem debounce_burst_single_recognition :
    (∀ (s : DebounceState) (d : Nat) (c : DiagramCandidate),
      schedule_recognition s d c =
        { now := s.now, pending := some (s.now + d, c), runs := s.runs }) ∧
    (∀ (s : DebounceState) (c1 c2 : DiagramCandidate) (d dt dq : Nat),
      s.pending = none → dt < d → d ≤ dq →
      run_debounce d s
          [DebounceEvent.viewport_change c1, DebounceEvent.quiet dt,
           DebounceEvent.viewport_change c2, DebounceEvent.quiet dq] =
        { now := s.now + dt + dq, pending := none,
          runs := s.runs ++ [(s.now + dt + d, c2)] }) := by
  constructor
  · intro s d c
    rfl
  · intro s c1 c2 d dt dq hpend hdt hdq
    have hnf : ¬(s.now + d ≤ s.now + dt) := by omega
    have hf : s.now + dt + d ≤ s.now + dt + dq := by omega
    simp only [run_debounce, schedule_recognition, elapse, if_neg hnf, if_pos hf]

/-- C8 witness: two viewport events 100 ms apart with debounce_ms = 500, then
600 ms of quiet: exactly one recognition runs, for the second candidate, at
time 600. -/
theorem debounce_burst_single_recognition_witness :
    ({ now := 0, pending := none, runs := [] } : DebounceState).pending = none ∧
    100 < 500 ∧ 500 ≤ 600 ∧
    run_debounce 500 { now := 0, pending := none, runs := [] }
        [DebounceEvent.viewport_change (mkCandidate "A" 0 0),
         DebounceEvent.quiet 100,
         DebounceEvent.viewport_change (mkCandidate "B" 0 100),
         DebounceEvent.quiet 600] =
      { now := 700, pending := none, runs := [(600, mkCandidate "B" 0 100)] } :=
  ⟨rfl, by omega, by omega,
    debounce_burst_single_recognition.2
      { now := 0, pending := none, runs := [] }
      (mkCandidate "A" 0 0) (mkCandidate "B" 0 100) 500 100 600
      rfl (by omega) (by omega)⟩

/-! ### Selector lemmas (C7) -/

theorem lexLe_refl (p : ℚ × ℚ) : lexLe p p = true := by
  simp [lexLe]

theorem lexLe_trans (p q r : ℚ × ℚ) (h1 : lexLe p q = true) (h2 : lexLe q r = true) :
    lexLe p r = true := by
  simp only [lexLe, decide_eq_true_eq] at h1 h2 ⊢
  rcases h1 with h1 | ⟨h1a, h1b⟩
  · rcases h2 with h2 | ⟨h2a, h2b⟩
    · exact Or.inl (lt_trans h1 h2)
    · exact Or.inl (lt_of_lt_of_le h1 (le_of_eq h2a))
  · rcases h2 with h2 | ⟨h2a, h2b⟩
    · exact Or.inl (lt_of_le_of_lt (le_of_eq h1a) h2)
    · exact Or.inr ⟨h1a.trans h2a, le_trans h1b h2b⟩

theorem lexLe_total (p q : ℚ × ℚ) : (lexLe p q || lexLe q p) = true := by
  simp only [lexLe, Bool.or_eq_true, decide_eq_true_eq]
  rcases lt_trichotomy p.1 q.1 with h | h | h
  · exact Or.inl (Or.inl h)
  · rcases le_total p.2 q.2 with h2 | h2
    · exact Or.inl (Or.inr ⟨h, h2⟩)
    · exact Or.inr (Or.inr ⟨h.symm, h2⟩)
  · exact Or.inr (Or.inl h)

theorem key_le_trans (a b c : DiagramCandidate × ℚ)
    (h1 : key_le a b) (h2 : key_le b c) : key_le a c :=
  lexLe_trans _ _ _ h1 h2

theorem key_le_total (a b : DiagramCandidate × ℚ) : (key_le a b || key_le b a) = true :=
  lexLe_total _ _

theorem key_le_of_key_eq (a b : DiagramCandidate × ℚ)
    (h : sort_key a = sort_key b) : key_le a b = true := by
  unfold key_le
  rw [h]
  exact lexLe_refl _

/-- The head of a stable merge sort is the first minimum of the input list. -/
theorem head?_mergeSort_eq_firstMinBy {α : Type} (le : α → α → Bool)
    (htrans : ∀ (a b c : α), le a b → le b c → le a c)
    (htotal : ∀ (a b : α), le a b || le b a) :
    ∀ l : List α, (l.mergeSort le).head? = firstMinBy le l
  | [] => by simp [firstMinBy]
  | a :: rest => by
    obtain ⟨l₁, l₂, h1, h2, h3⟩ := List.mergeSort_cons htrans htotal a rest
    have ih := head?_mergeSort_eq_firstMinBy le htrans htotal rest
    have hfm : firstMinBy le (a :: rest) =
        (match firstMinBy le rest with
         | none => some a
         | some b => if le a b then some a else some b) := rfl
    cases l₁ with
    | nil =>
      simp only [List.nil_append] at h1 h2
      rw [h1, hfm, ← ih, h2]
      cases l₂ with
      | nil => rfl
      | cons b t =>
        have hs := List.sorted_mergeSort htrans htotal (a :: rest)
        rw [h1] at hs
        have hab : le a b = true :=
          (List.pairwise_cons.mp hs).1 b (List.mem_cons_self b t)
        simp [hab]
    | cons m l₁t =>
      have hm : le a m = false := by
        have := h3 m (List.mem_cons_self m l₁t)
        simpa using this
      rw [List.cons_append] at h1
      rw [h1, hfm, ← ih, h2]
      simp [hm]

theorem firstMinBy_eq_none_iff {α : Type} (le : α → α → Bool) (l : List α) :
    firstMinBy le l = none ↔ l = [] := by
  cases l with
  | nil => simp [firstMinBy]
  | cons a rest =>
    have hfm : firstMinBy le (a :: rest) =
        (match firstMinBy le rest with
         | none => some a
         | some b => if le a b then some a else some b) := rfl
    rw [hfm]
    cases hr : firstMinBy le rest with
    | none => simp
    | some b => by_cases hab : le a b = true <;> simp [hab]

theorem firstMinBy_mem {α : Type} (le : α → α → Bool) :
    ∀ (l : List α) (c : α), firstMinBy le l = some c → c ∈ l
  | [], c => by intro h; simp [firstMinBy] at h
  | a :: rest, c => by
    intro h
    have hfm : firstMinBy le (a :: rest) =
        (match firstMinBy le rest with
         | none => some a
         | some b => if le a b then some a else some b) := rfl
    rw [hfm] at h
    cases hr : firstMinBy le rest with
    | none =>
      rw [hr] at h
      simp only [Option.some.injEq] at h
      exact h ▸ List.mem_cons_self a rest
    | some b =>
      rw [hr] at h
      by_cases hab : le a b = true
      · simp only [if_pos hab, Option.some.injEq] at h
        exact h ▸ List.mem_cons_self a rest
      · simp only [if_neg hab, Option.some.injEq] at h
        exact List.mem_cons_of_mem a (h ▸ firstMinBy_mem le rest b hr)

theorem firstMinBy_min {α : Type} (le : α → α → Bool)
    (htrans : ∀ (a b c : α), le a b → le b c → le a c)
    (htotal : ∀ (a b : α), le a b || le b a) :
    ∀ (l : List α) (c : α), firstMinBy le l = some c → ∀ d ∈ l, le c d
  | [], c => by intro h; simp [firstMinBy] at h
  | a :: rest, c => by
    intro h d hd
    have hrefl : ∀ x : α, le x x = true := by
      intro x
      have := htotal x x
      simpa using this
    have hfm : firstMinBy le (a :: rest) =
        (match firstMinBy le rest with
         | none => some a
         | some b => if le a b then some a else some b) := rfl
    rw [hfm] at h
    cases hr : firstMinBy le rest with
    | none =>
      rw [hr] at h
      simp only [Option.some.injEq] at h
      have hrest : rest = [] := (firstMinBy_eq_none_iff le rest).mp hr
      subst hrest
      simp only [List.mem_singleton] at hd
      rw [← h, hd]
      exact hrefl a
    | some b =>
      rw [hr] at h
      by_cases hab : le a b = true
      · simp only [if_pos hab, Option.some.injEq] at h
        rcases List.mem_cons.mp hd with hda | hdr
        · rw [← h, hda]
          exact hrefl a
        · rw [← h]
          exact htrans a b d hab (firstMinBy_min le htrans htotal rest b hr d hdr)
      · simp only [if_neg hab, Option.some.injEq] at h
        rcases List.mem_cons.mp hd with hda | hdr
        · have hba := htotal a b
          simp only [hab, Bool.false_or] at hba
          rw [← h, hda]
          exact hba
        · rw [← h]
          exact firstMinBy_min le htrans htotal rest b hr d hdr

theorem firstMinBy_first {α β : Type} [DecidableEq β] (le : α → α → Bool) (k : α → β)
    (hk : ∀ a b, k a = k b → le a b = true) :
    ∀ (l : List α) (c : α), firstMinBy le l = some c →
      l.find? (fun d => decide (k d = k c)) = some c
  | [], c => by intro h; simp [firstMinBy] at h
  | a :: rest, c => by
    intro h
    have hfm : firstMinBy le (a :: rest) =
        (match firstMinBy le rest with
         | none => some a
         | some b => if le a b then some a else some b) := rfl
    rw [hfm] at h
    cases hr : firstMinBy le rest with
    | none =>
      rw [hr] at h
      simp only [Option.some.injEq] at h
      rw [← h]
      exact List.find?_cons_of_pos rest (by simp)
    | some b =>
      rw [hr] at h
      by_cases hab : le a b = true
      · simp only [if_pos hab, Option.some.injEq] at h
        rw [← h]
        exact List.find?_cons_of_pos rest (by simp)
      · simp only [if_neg hab, Option.some.injEq] at h
        rw [← h]
        have hne : ¬(k a = k b) := fun he => hab (hk a b he)
        rw [List.find?_cons_of_neg rest (by simpa using hne)]
        exact firstMinBy_first le k hk rest b hr

/-- C7: select_topmost_visible returns none exactly when no candidate reaches
the (inclusive) visibility threshold; otherwise it returns a qualifying
candidate whose (bbox.y0, bbox.x0) key is minimal among all qualifiers under
the lexicographic order, and which is the first candidate in input order among
the qualifiers sharing that minimal key. -/
theorem select_topmost_visible_spec (candidates : List DiagramCandidate)
    (viewport : BoundingBox) (t : ℚ) :
    (select_topmost_visible candidates viewport t = none ↔
      ∀ c ∈ candidates, ¬(t ≤ c.bbox.visibility_fraction viewport)) ∧
    (∀ c, select_topmost_visible candidates viewport t = some c →
      t ≤ c.bbox.visibility_fraction viewport ∧
      c ∈ candidates ∧
      (∀ d ∈ candidates, t ≤ d.bbox.visibility_fraction viewport →
        c.bbox.y0 < d.bbox.y0 ∨ (c.bbox.y0 = d.bbox.y0 ∧ c.bbox.x0 ≤ d.bbox.x0)) ∧
      candidates.find?
          (fun d => decide (t ≤ d.bbox.visibility_fraction viewport) &&
            decide ((d.bbox.y0, d.bbox.x0) = (c.bbox.y0, c.bbox.x0))) = some c) := by
  have hdef : select_topmost_visible candidates viewport t =
      (if ((candidates.map
              (fun c => (c, c.bbox.visibility_fraction viewport))).filter
            (fun cv => decide (t ≤ cv.2))).isEmpty then none
       else (((candidates.map
              (fun c => (c, c.bbox.visibility_fraction viewport))).filter
            (fun cv => decide (t ≤ cv.2))).mergeSort key_le).head?.map
         (fun cv => cv.1)) := rfl
  constructor
  · constructor
    · intro hnone
      rw [hdef] at hnone
      by_cases hemp : ((candidates.map
          (fun c => (c, c.bbox.visibility_fraction viewport))).filter
            (fun cv => decide (t ≤ cv.2))).isEmpty
      · have hnil := List.isEmpty_iff.mp hemp
        intro c hc hle
        have hmem : (c, c.bbox.visibility_fraction viewport) ∈
            ((candidates.map
              (fun c => (c, c.bbox.visibility_fraction viewport))).filter
                (fun cv => decide (t ≤ cv.2))) := by
          apply List.mem_filter.mpr
          refine ⟨List.mem_map_of_mem _ hc, by simpa using hle⟩
        rw [hnil] at hmem
        simp at hmem
      · rw [if_neg hemp] at hnone
        have hvnil : ((candidates.map
            (fun c => (c, c.bbox.visibility_fraction viewport))).filter
              (fun cv => decide (t ≤ cv.2))) = [] := by
          have h1 := Option.map_eq_none'.mp hnone
          have h2 := List.head?_eq_none_iff.mp h1
          have h3 := congrArg List.length h2
          simp only [List.length_mergeSort, List.length_nil] at h3
          exact List.length_eq_zero.mp h3
        exact absurd (List.isEmpty_iff.mpr hvnil) hemp
    · intro hall
      rw [hdef]
      have hnil : ((candidates.map
          (fun c => (c, c.bbox.visibility_fraction viewport))).filter
            (fun cv => decide (t ≤ cv.2))) = [] := by
        apply List.filter_eq_nil_iff.mpr
        intro cv hcv
        obtain ⟨c, hc, hfc⟩ := List.mem_map.mp hcv
        rw [← hfc]
        simpa using hall c hc
      rw [hnil]
      rfl
  · intro c hsel
    rw [hdef] at hsel
    by_cases hemp : ((candidates.map
        (fun c => (c, c.bbox.visibility_fraction viewport))).filter
          (fun cv => decide (t ≤ cv.2))).isEmpty
    · rw [if_pos hemp] at hsel
      exact absurd hsel (by simp)
    · rw [if_neg hemp] at hsel
      obtain ⟨cv, hhead, hcv1⟩ := Option.map_eq_some'.mp hsel
      have hfm : firstMinBy key_le
          ((candidates.map
            (fun c => (c, c.bbox.visibility_fraction viewport))).filter
              (fun cv => decide (t ≤ cv.2))) = some cv := by
        rw [← head?_mergeSort_eq_firstMinBy key_le key_le_trans key_le_total]
        exact hhead
      have hmem := firstMinBy_mem key_le _ cv hfm
      obtain ⟨hmm, hp⟩ := List.mem_filter.mp hmem
      obtain ⟨c2, hc2mem, hc2eq⟩ := List.mem_map.mp hmm
      have hc2c : c2 = c := by
        have h1 := congrArg Prod.fst hc2eq
        simpa [hcv1] using h1
      rw [hc2c] at hc2mem hc2eq
      have hcv : cv = (c, c.bbox.visibility_fraction viewport) := hc2eq.symm
      subst hcv
      refine ⟨by simpa using hp, hc2mem, ?_, ?_⟩
      · intro d hd hqd
        have hdmem : (d, d.bbox.visibility_fraction viewport) ∈
            ((candidates.map
              (fun c => (c, c.bbox.visibility_fraction viewport))).filter
                (fun cv => decide (t ≤ cv.2))) := by
          apply List.mem_filter.mpr
          refine ⟨List.mem_map_of_mem _ hd, by simpa using hqd⟩
        have hle := firstMinBy_min key_le key_le_trans key_le_total _ _ hfm
          (d, d.bbox.visibility_fraction viewport) hdmem
        simpa [key_le, lexLe, sort_key] using hle
      · have hff := firstMinBy_first key_le sort_key key_le_of_key_eq _ _ hfm
        rw [List.find?_filter, List.find?_map] at hff
        obtain ⟨c3, hc3find, hc3eq⟩ := Option.map_eq_some'.mp hff
        have hc3c : c3 = c := by
          have h1 := congrArg Prod.fst hc3eq
          simpa using h1
        rw [hc3c] at hc3find
        have hgoal := hc3find
        convert hgoal using 2
        funext x
        simp [Function.comp, sort_key, Prod.ext_iff]

/-- Helper: the selector equals the first minimum of the filtered list under
the (y0, x0) order, which is directly computable. -/
theorem select_eq_firstMinBy (candidates : List DiagramCandidate)
    (viewport : BoundingBox) (t : ℚ) :
    select_topmost_visible candidates viewport t =
      (firstMinBy key_le
        ((candidates.map (fun c => (c, c.bbox.visibility_fraction viewport))).filter
          (fun cv => decide (t ≤ cv.2)))).map (fun cv => cv.1) := by
  have hdef : select_topmost_visible candidates viewport t =
      (if ((candidates.map
              (fun c => (c, c.bbox.visibility_fraction viewport))).filter
            (fun cv => decide (t ≤ cv.2))).isEmpty then none
       else (((candidates.map
              (fun c => (c, c.bbox.visibility_fraction viewport))).filter
            (fun cv => decide (t ≤ cv.2))).mergeSort key_le).head?.map
         (fun cv => cv.1)) := rfl
  rw [hdef, ← head?_mergeSort_eq_firstMinBy key_le key_le_trans key_le_total]
  by_cases hemp : ((candidates.map
      (fun c => (c, c.bbox.visibility_fraction viewport))).filter
        (fun cv => decide (t ≤ cv.2))).isEmpty
  · rw [if_pos hemp, List.isEmpty_iff.mp hemp]
    simp
  · rw [if_neg hemp]

/-- C7 witness: two fully visible candidates, A at y0 = 0 and B at y0 = 40,
threshold 0.3: the selection is A, which qualifies, is minimal in the
(y0, x0) order among qualifiers, and is the first qualifier with its key. -/
theorem select_topmost_visible_spec_witness :
    select_topmost_visible [mkCandidate "A" 0 0, mkCandidate "B" 0 40]
        { x0 := 0, y0 := 0, x1 := 50, y1 := 50 } (3/10) =
      some (mkCandidate "A" 0 0) ∧
    ((3 : ℚ)/10 ≤ (mkCandidate "A" 0 0).bbox.visibility_fraction
        { x0 := 0, y0 := 0, x1 := 50, y1 := 50 } ∧
     mkCandidate "A" 0 0 ∈ [mkCandidate "A" 0 0, mkCandidate "B" 0 40] ∧
     (∀ d ∈ [mkCandidate "A" 0 0, mkCandidate "B" 0 40],
        (3 : ℚ)/10 ≤ d.bbox.visibility_fraction
          { x0 := 0, y0 := 0, x1 := 50, y1 := 50 } →
        (mkCandidate "A" 0 0).bbox.y0 < d.bbox.y0 ∨
          ((mkCandidate "A" 0 0).bbox.y0 = d.bbox.y0 ∧
           (mkCandidate "A" 0 0).bbox.x0 ≤ d.bbox.x0)) ∧
     ([mkCandidate "A" 0 0, mkCandidate "B" 0 40].find?
        (fun d => decide ((3 : ℚ)/10 ≤ d.bbox.visibility_fraction
            { x0 := 0, y0 := 0, x1 := 50, y1 := 50 }) &&
          decide ((d.bbox.y0, d.bbox.x0) =
            ((mkCandidate "A" 0 0).bbox.y0, (mkCandidate "A" 0 0).bbox.x0))) =
       some (mkCandidate "A" 0 0))) := by
  have hA : select_topmost_visible [mkCandidate "A" 0 0, mkCandidate "B" 0 40]
      { x0 := 0, y0 := 0, x1 := 50, y1 := 50 } (3/10) =
      some (mkCandidate "A" 0 0) := by
    rw [select_eq_firstMinBy]
    norm_num [mkCandidate, BoundingBox.visibility_fraction, BoundingBox.area,
      BoundingBox.width, BoundingBox.height, BoundingBox.intersection_area,
      BoundingBox.intersects, firstMinBy, key_le, lexLe, sort_key]
  exact ⟨hA,
    (select_topmost_visible_spec [mkCandidate "A" 0 0, mkCandidate "B" 0 40]
      { x0 := 0, y0 := 0, x1 := 50, y1 := 50 } (3/10)).2
      (mkCandidate "A" 0 0) hA⟩

end OpenChessVision
